import Mathlib

/-!
Verification of the pixi-babylon integration core against its specification.

The definitions below are a shallow embedding of the repository's
TypeScript sources:

* `src/src/integration/BabylonTextureFilter.ts` — the WebGL state
  snapshot/restore utilities (`captureWebGLState`, `restoreWebGLState`,
  `withPixiState`, `createStateManager`) and the alpha-correction
  fragment shader of `BabylonTextureFilter`;
* `src/src/pixi/createPixiApp.ts` — the `PixiDynamicTexture` bridge
  (size computation, constructor, `setupUpdateBehavior`,
  `setRenderObservable`, `dispose`);
* `src/unnamed/part_000` — the `ContextManager` registry
  (`switchTo`, shared-context helpers);
* `src/src/core/PixiBabylonApp.ts` — the `PixiBabylonApplication`
  render-loop control (`start`).

GPU handles (textures, buffers, framebuffers) are modelled as `Option Nat`
(`none` is the JS `null` binding), GL enum values as `Nat`, GL float
state (clear color, shader colors) as `ℚ`, and the mutable WebGL context
as an explicit state record threaded through each `gl.*` call.
-/

/-- Four-component integer rectangle, the model of an `Int32Array` of
length 4 returned by `gl.getParameter(gl.VIEWPORT)` / `gl.SCISSOR_BOX`. -/
structure Rect4 where
  x : Int
  y : Int
  w : Int
  h : Int
deriving DecidableEq, Repr

/-- Four-component color, the model of the `Float32Array` returned by
`gl.getParameter(gl.COLOR_CLEAR_VALUE)` (exact rationals stand in for
the GL floats). -/
structure Col4 where
  r : ℚ
  g : ℚ
  b : ℚ
  a : ℚ
deriving DecidableEq, Repr

/-- The tracked mutable state of a WebGL context, plus the context
constant `MAX_COMBINED_TEXTURE_IMAGE_UNITS`.  `boundTexture2D` maps a
texture unit index to the texture bound to `TEXTURE_2D` on that unit.
`activeTexture` stores the raw GL enum value (`TEXTURE0 + unit`), as
`gl.getParameter(gl.ACTIVE_TEXTURE)` returns it. -/
@[ext]
structure GLCtx where
  maxCombinedTextureImageUnits : Nat
  viewport : Rect4
  scissorBox : Rect4
  clearColor : Col4
  blendSrcRGB : Nat
  blendDstRGB : Nat
  blendSrcAlpha : Nat
  blendDstAlpha : Nat
  depthFunc : Nat
  stencilFunc : Nat
  stencilRef : Int
  stencilValueMask : Nat
  activeTexture : Nat
  boundTexture2D : Nat → Option Nat
  boundArrayBuffer : Option Nat
  boundElementArrayBuffer : Option Nat
  boundFramebuffer : Option Nat
  boundRenderbuffer : Option Nat
  boundVertexArray : Option Nat

/-- The GL enum `gl.TEXTURE0`. -/
def TEXTURE0 : Nat := 33984

/-- `gl.activeTexture(t)` — `t` is a raw enum value `TEXTURE0 + unit`. -/
def glActiveTexture (c : GLCtx) (t : Nat) : GLCtx :=
  { c with activeTexture := t }

/-- `gl.bindTexture(gl.TEXTURE_2D, tex)` binds on the active unit. -/
def glBindTexture2D (c : GLCtx) (tex : Option Nat) : GLCtx :=
  { c with boundTexture2D :=
      fun u => if u = c.activeTexture - TEXTURE0 then tex else c.boundTexture2D u }

/-- `gl.getParameter(gl.TEXTURE_BINDING_2D)` reads the active unit. -/
def glGetTextureBinding2D (c : GLCtx) : Option Nat :=
  c.boundTexture2D (c.activeTexture - TEXTURE0)

/-- `gl.viewport(x, y, w, h)`. -/
def glViewport (c : GLCtx) (r : Rect4) : GLCtx :=
  { c with viewport := r }

/-- `gl.scissor(x, y, w, h)`. -/
def glScissor (c : GLCtx) (r : Rect4) : GLCtx :=
  { c with scissorBox := r }

/-- `gl.clearColor(r, g, b, a)`. -/
def glClearColor (c : GLCtx) (col : Col4) : GLCtx :=
  { c with clearColor := col }

/-- `gl.blendFuncSeparate(src, dst, srcAlpha, dstAlpha)`. -/
def glBlendFuncSeparate (c : GLCtx) (src dst srcAlpha dstAlpha : Nat) : GLCtx :=
  { c with blendSrcRGB := src, blendDstRGB := dst,
           blendSrcAlpha := srcAlpha, blendDstAlpha := dstAlpha }

/-- `gl.depthFunc(f)`. -/
def glDepthFunc (c : GLCtx) (f : Nat) : GLCtx :=
  { c with depthFunc := f }

/-- `gl.stencilFunc(f, ref, mask)`. -/
def glStencilFunc (c : GLCtx) (f : Nat) (ref : Int) (mask : Nat) : GLCtx :=
  { c with stencilFunc := f, stencilRef := ref, stencilValueMask := mask }

/-- `gl.bindBuffer(gl.ARRAY_BUFFER, b)`. -/
def glBindArrayBuffer (c : GLCtx) (b : Option Nat) : GLCtx :=
  { c with boundArrayBuffer := b }

/-- `gl.bindBuffer(gl.ELEMENT_ARRAY_BUFFER, b)`. -/
def glBindElementArrayBuffer (c : GLCtx) (b : Option Nat) : GLCtx :=
  { c with boundElementArrayBuffer := b }

/-- `gl.bindFramebuffer(gl.FRAMEBUFFER, b)`. -/
def glBindFramebuffer (c : GLCtx) (b : Option Nat) : GLCtx :=
  { c with boundFramebuffer := b }

/-- `gl.bindRenderbuffer(gl.RENDERBUFFER, b)`. -/
def glBindRenderbuffer (c : GLCtx) (b : Option Nat) : GLCtx :=
  { c with boundRenderbuffer := b }

/-- `gl.bindVertexArray(v)`. -/
def glBindVertexArray (c : GLCtx) (v : Option Nat) : GLCtx :=
  { c with boundVertexArray := v }

/-- The `WebGLState` interface of
`src/src/integration/BabylonTextureFilter.ts` (lines 148-161):
the immutable snapshot produced by `captureWebGLState`. -/
structure WebGLState where
  viewport : Rect4
  scissorBox : Rect4
  clearColor : Col4
  blendSrc : Nat
  blendDst : Nat
  blendSrcAlpha : Nat
  blendDstAlpha : Nat
  depthFunc : Nat
  stencilFuncFn : Nat
  stencilRef : Int
  stencilValueMask : Nat
  activeTexture : Nat
  boundTextures : List (Option Nat)
  boundArrayBuffer : Option Nat
  boundElementArrayBuffer : Option Nat
  boundFramebuffer : Option Nat
  boundRenderbuffer : Option Nat

/-- The probing loop of `captureWebGLState` (lines 185-188):
`for (let i = 0; i < n; i++) { gl.activeTexture(gl.TEXTURE0 + i);
boundTextures.push(gl.getParameter(gl.TEXTURE_BINDING_2D)) }`.
`captureBoundTextures c n` performs iterations `0 … n-1` in order,
threading the context. -/
def captureBoundTextures (c : GLCtx) : Nat → List (Option Nat) × GLCtx
  | 0 => ([], c)
  | Nat.succ n =>
      let p := captureBoundTextures c n
      let c2 := glActiveTexture p.2 (TEXTURE0 + n)
      (p.1 ++ [glGetTextureBinding2D c2], c2)

/-- `captureWebGLState(gl)` (lines 179-216): saves the active texture
unit, probes the 2D binding of the first `min(maxTextureUnits, 8)`
units, restores the active unit, then reads every remaining tracked
slot into the snapshot.  Returns the snapshot together with the context
after the (probing) side effects. -/
def captureWebGLState (c : GLCtx) : WebGLState × GLCtx :=
  let activeTexture := c.activeTexture
  let maxTextureUnits := c.maxCombinedTextureImageUnits
  let p := captureBoundTextures c (min maxTextureUnits 8)
  let c1 := glActiveTexture p.2 activeTexture
  ({ viewport := c1.viewport
     scissorBox := c1.scissorBox
     clearColor := c1.clearColor
     blendSrc := c1.blendSrcRGB
     blendDst := c1.blendDstRGB
     blendSrcAlpha := c1.blendSrcAlpha
     blendDstAlpha := c1.blendDstAlpha
     depthFunc := c1.depthFunc
     stencilFuncFn := c1.stencilFunc
     stencilRef := c1.stencilRef
     stencilValueMask := c1.stencilValueMask
     activeTexture := activeTexture
     boundTextures := p.1
     boundArrayBuffer := c1.boundArrayBuffer
     boundElementArrayBuffer := c1.boundElementArrayBuffer
     boundFramebuffer := c1.boundFramebuffer
     boundRenderbuffer := c1.boundRenderbuffer }, c1)

/-- The texture-rebinding loop of `restoreWebGLState` (lines 263-266):
`for (let i = 0; i < state.boundTextures.length; i++) {
gl.activeTexture(gl.TEXTURE0 + i); gl.bindTexture(gl.TEXTURE_2D,
state.boundTextures[i]) }`, with `i` the index of the list element. -/
def restoreBoundTextures (c : GLCtx) : List (Option Nat) → Nat → GLCtx
  | [], _ => c
  | t :: ts, i =>
      restoreBoundTextures (glBindTexture2D (glActiveTexture c (TEXTURE0 + i)) t) ts (i + 1)

/-- `restoreWebGLState(gl, state)` (lines 224-268): writes every slot
back in the source's order and finishes by restoring the originally
active texture unit. -/
def restoreWebGLState (c : GLCtx) (s : WebGLState) : GLCtx :=
  let c := glViewport c s.viewport
  let c := glScissor c s.scissorBox
  let c := glClearColor c s.clearColor
  let c := glBlendFuncSeparate c s.blendSrc s.blendDst s.blendSrcAlpha s.blendDstAlpha
  let c := glDepthFunc c s.depthFunc
  let c := glStencilFunc c s.stencilFuncFn s.stencilRef s.stencilValueMask
  let c := glBindArrayBuffer c s.boundArrayBuffer
  let c := glBindElementArrayBuffer c s.boundElementArrayBuffer
  let c := glBindFramebuffer c s.boundFramebuffer
  let c := glBindRenderbuffer c s.boundRenderbuffer
  let c := restoreBoundTextures c s.boundTextures 0
  glActiveTexture c s.activeTexture

/-- A concrete initial WebGL context (GL default values: viewport and
scissor zeroed, clear color transparent black, blend `ONE`/`ZERO`,
depth `LESS`, stencil `ALWAYS`, unit 0 active, nothing bound). -/
def initGLCtx : GLCtx :=
  { maxCombinedTextureImageUnits := 32
    viewport := ⟨0, 0, 0, 0⟩
    scissorBox := ⟨0, 0, 0, 0⟩
    clearColor := ⟨0, 0, 0, 0⟩
    blendSrcRGB := 1
    blendDstRGB := 0
    blendSrcAlpha := 1
    blendDstAlpha := 0
    depthFunc := 513
    stencilFunc := 519
    stencilRef := 0
    stencilValueMask := 4294967295
    activeTexture := TEXTURE0
    boundTexture2D := fun _ => none
    boundArrayBuffer := none
    boundElementArrayBuffer := none
    boundFramebuffer := none
    boundRenderbuffer := none
    boundVertexArray := none }

/-- Equality of two contexts on every slot tracked by the snapshot
(§3 of the spec): viewport, scissor, clear color, RGB/alpha blend
functions, depth function, stencil function/ref/mask, active texture
unit, the per-unit bound 2D texture up to the `min(max, 8)` cap of the
reference context `b`, and the four binding points. -/
def trackedEq (a b : GLCtx) : Prop :=
  a.viewport = b.viewport ∧
  a.scissorBox = b.scissorBox ∧
  a.clearColor = b.clearColor ∧
  a.blendSrcRGB = b.blendSrcRGB ∧
  a.blendDstRGB = b.blendDstRGB ∧
  a.blendSrcAlpha = b.blendSrcAlpha ∧
  a.blendDstAlpha = b.blendDstAlpha ∧
  a.depthFunc = b.depthFunc ∧
  a.stencilFunc = b.stencilFunc ∧
  a.stencilRef = b.stencilRef ∧
  a.stencilValueMask = b.stencilValueMask ∧
  a.activeTexture = b.activeTexture ∧
  (∀ i < min b.maxCombinedTextureImageUnits 8, a.boundTexture2D i = b.boundTexture2D i) ∧
  a.boundArrayBuffer = b.boundArrayBuffer ∧
  a.boundElementArrayBuffer = b.boundElementArrayBuffer ∧
  a.boundFramebuffer = b.boundFramebuffer ∧
  a.boundRenderbuffer = b.boundRenderbuffer

/-- `withPixiState(pixiRenderer, babylonEngine, renderFunction)`
(lines 286-305).  `reset` models `pixiRenderer.resetState()` (an
arbitrary external state mutation); `fn` models `renderFunction`,
returning `(some e, c)` when it throws `e` with the context left in
state `c`, and `(none, c)` on normal return.  The `finally` block
restores the captured snapshot on both exit paths; a failure is then
re-raised (first component of the result). -/
def withPixiState {ε : Type} (reset : GLCtx → GLCtx) (fn : GLCtx → Option ε × GLCtx)
    (ctx : GLCtx) : Option ε × GLCtx :=
  let p := captureWebGLState ctx
  let c1 := reset p.2
  match fn c1 with
  | (some e, cf) => (some e, restoreWebGLState cf p.1)
  | (none, c2) =>
      let c3 := glBindFramebuffer (glBindVertexArray (reset c2) none) none
      (none, restoreWebGLState c3 p.1)

/-- The `savedState` closure variable of `createStateManager`
(lines 354-381): `null` before any `saveState()` and after `reset()`. -/
def createStateManagerSavedState : Option WebGLState := none

/-- `stateManager.saveState()` (lines 359-361). -/
def stateManagerSaveState (c : GLCtx) : Option WebGLState × GLCtx :=
  let p := captureWebGLState c
  (some p.1, p.2)

/-- `stateManager.restoreState()` (lines 363-367): restores only when a
state was saved; with `savedState === null` it performs no GL call. -/
def stateManagerRestoreState (saved : Option WebGLState) (c : GLCtx) : GLCtx :=
  match saved with
  | some st => restoreWebGLState c st
  | none => c

/-- `stateManager.reset()` (lines 377-379). -/
def stateManagerReset (_saved : Option WebGLState) : Option WebGLState :=
  none

/-- An RGBA color in the fragment shader, exact rationals standing in
for GLSL floats. -/
structure Color4 where
  r : ℚ
  g : ℚ
  b : ℚ
  a : ℚ
deriving DecidableEq, Repr

/-- The `main` of the correction filter's `FRAGMENT_SHADER`
(`src/src/integration/BabylonTextureFilter.ts` lines 96-113, the
revision used by the pixi-v8 `BabylonTextureFilter`): on sampled color
`c`, `if (c.a == 0.0) finalColor = vec4(0,0,0,0); else finalColor =
vec4(c.rgb / c.a, c.a)`. -/
def fragmentShaderMain (c : Color4) : Color4 :=
  if c.a = 0 then ⟨0, 0, 0, 0⟩
  else ⟨c.r / c.a, c.g / c.a, c.b / c.a, c.a⟩

/-- A width/height pair of JS numbers (`ISize`), modelled over `ℚ`. -/
structure QSize where
  width : ℚ
  height : ℚ
deriving DecidableEq, Repr

/-- JS `Math.ceil` on a rational, staying in `ℚ` as JS stays in
`number`. -/
def mathCeil (x : ℚ) : ℚ :=
  (⌈x⌉ : ℚ)

/-- The `normalizedSize` computation of the `PixiDynamicTexture`
constructor (`src/src/pixi/createPixiApp.ts` lines 136-139):
`{ width: Math.ceil(size.width), height: Math.ceil(size.height) }`. -/
def normalizedSize (size : QSize) : QSize :=
  ⟨mathCeil size.width, mathCeil size.height⟩

/-- The `renderSize` computation of the constructor (lines 142-145):
`{ width: Math.ceil(normalizedSize.width * resolution), height:
Math.ceil(normalizedSize.height * resolution) }`. -/
def renderSizeOf (size : QSize) (resolution : ℚ) : QSize :=
  ⟨mathCeil ((normalizedSize size).width * resolution),
   mathCeil ((normalizedSize size).height * resolution)⟩

/-- The size-dependent result of the `PixiDynamicTexture` constructor:
the computed render size, the backing `Uint8Array` length
`renderSize.width * renderSize.height * 4` (line 149), and the
`RenderTexture.create` arguments (lines 177-181). -/
structure PixiDynamicTextureInit where
  renderSize : QSize
  textureDataLength : ℚ
  renderTextureWidth : ℚ
  renderTextureHeight : ℚ
  renderTextureResolution : ℚ
deriving DecidableEq, Repr

/-- The size/allocation path of the `PixiDynamicTexture` constructor
(lines 121-201).  The constructor performs no validation of the
requested size: it never throws, so the embedding always returns
`Except.ok` (the `Except.error` channel is the constructor's ability
to throw, which the source does not use). -/
def pixiDynamicTextureCtorSize (size : QSize) (resolution : ℚ) :
    Except String PixiDynamicTextureInit :=
  Except.ok
    { renderSize := renderSizeOf size resolution
      textureDataLength :=
        (renderSizeOf size resolution).width * (renderSizeOf size resolution).height * 4
      renderTextureWidth := (normalizedSize size).width
      renderTextureHeight := (normalizedSize size).height
      renderTextureResolution := resolution }

/-- A Babylon `Observable`: an ordered list of registered observers.
Each observer is an identity (`Nat`) paired with its
`unregisterOnNextCall` flag (`true` for `addOnce` registrations). -/
structure Observable where
  observers : List (Nat × Bool)
deriving DecidableEq, Repr

/-- `observable.add(cb)`: appends a persistent observer. -/
def Observable.addObs (o : Observable) (id : Nat) : Observable :=
  ⟨o.observers ++ [(id, false)]⟩

/-- `observable.addOnce(cb)`: appends a one-shot observer. -/
def Observable.addOnceObs (o : Observable) (id : Nat) : Observable :=
  ⟨o.observers ++ [(id, true)]⟩

/-- `observer.remove()`: unregisters that observer (removal by object
identity; ids stand for object identities). -/
def Observable.removeObs (o : Observable) (id : Nat) : Observable :=
  ⟨o.observers.filter (fun p => p.1 ≠ id)⟩

/-- One `notifyObservers()` cycle: the observer actions executed this
frame, in registration order. -/
def Observable.notifyTargets (o : Observable) : List Nat :=
  o.observers.map (fun p => p.1)

/-- How many times a single frame's `notifyObservers()` runs the
observer with identity `id` (each occurrence is one `sync(true)` of the
bridge owning that observer). -/
def Observable.syncCount (o : Observable) (id : Nat) : Nat :=
  (o.notifyTargets.filter (fun i => i = id)).length

/-- The observer-related instance state of a `PixiDynamicTexture`
(`src/src/pixi/createPixiApp.ts`): the instance field
`beforeRenderObservable` (line 111, `undefined` unless assigned), the
active `observer` (line 110), and `options.autoUpdate`. -/
structure PDTInstance where
  beforeRenderObservable : Option Nat
  observer : Option Nat
  autoUpdate : Bool
deriving DecidableEq, Repr

/-- `setupUpdateBehavior()` (lines 302-321): if the instance's
`beforeRenderObservable` is unavailable, warn and return without
registering; otherwise register `() => this.sync(true)` with `add`
(persistent, `autoUpdate` true) or `addOnce` (one-shot).  `world` is
the orchestrator observable the instance field refers to; `freshId`
is the identity of the newly created observer. -/
def setupUpdateBehavior (inst : PDTInstance) (world : Observable) (freshId : Nat) :
    PDTInstance × Observable :=
  match inst.beforeRenderObservable with
  | none => (inst, world)
  | some _ =>
      if inst.autoUpdate then
        ({ inst with observer := some freshId }, world.addObs freshId)
      else
        ({ inst with observer := some freshId }, world.addOnceObs freshId)

/-- `static setRenderObservable(observable)` (lines 330-333): the body
`this.beforeRenderObservable = observable` runs in a static method, so
it assigns the class (static) property, not any instance field. -/
def pixiDynamicTextureSetRenderObservable (_staticField : Option Nat) (obsId : Nat) :
    Option Nat :=
  some obsId

/-- The observer-related effect of the `PixiDynamicTexture`
constructor (lines 121-201): the instance field
`beforeRenderObservable` initializes to `undefined` (the static class
property set by `setRenderObservable` is never consulted by instance
reads), then `setupUpdateBehavior()` runs (line 200). -/
def pixiDynamicTextureConstruct (_staticField : Option Nat) (autoUpdate : Bool)
    (world : Observable) (freshId : Nat) : PDTInstance × Observable :=
  let inst : PDTInstance :=
    { beforeRenderObservable := none, observer := none, autoUpdate := autoUpdate }
  setupUpdateBehavior inst world freshId

/-- The lifecycle flags of a `PixiDynamicTexture` touched by
`dispose()`: whether the Babylon texture was released, whether the
PIXI `renderTexture` (the Render Target) was destroyed, whether the
internal `rootContainer` was destroyed, whether the caller-supplied
`container` was destroyed, and whether it is still attached to the
root container. -/
structure PDTLifecycle where
  observer : Option Nat
  babylonTextureDisposed : Bool
  renderTextureDestroyed : Bool
  rootContainerDestroyed : Bool
  containerDestroyed : Bool
  containerAttached : Bool
deriving DecidableEq, Repr

/-- `dispose()` (`src/src/pixi/createPixiApp.ts` lines 288-297):
`super.dispose()`; remove the observer if present;
`renderTexture.destroy(true)`; `rootContainer.destroy({ children:
false })` — destroying the root detaches its children without
destroying them. -/
def pixiDynamicTextureDispose (world : Observable) (b : PDTLifecycle) :
    Observable × PDTLifecycle :=
  let b1 := { b with babylonTextureDisposed := true }
  let world1 :=
    match b1.observer with
    | some id => world.removeObs id
    | none => world
  let b2 := { b1 with renderTextureDestroyed := true }
  let b3 := { b2 with rootContainerDestroyed := true, containerAttached := false }
  (world1, b3)

/-- The module-level `globalContext` of `src/unnamed/part_000`
(lines 15-25): the shared scene/pixiApp references and the
`initialized` flag. -/
structure SharedContext where
  scene : Option Nat
  pixiApp : Option Nat
  initialized : Bool
deriving DecidableEq, Repr

/-- `setupSharedContext(scene, pixiApp)` (lines 48-54). -/
def setupSharedContext (scene pixiApp : Nat) : SharedContext :=
  { scene := some scene, pixiApp := some pixiApp, initialized := true }

/-- `clearSharedContext()` (lines 80-84). -/
def clearSharedContext : SharedContext :=
  { scene := none, pixiApp := none, initialized := false }

/-- The error thrown by `ContextManager.switchTo` on a missing name
(line 123). -/
inductive CMError where
  | contextNotFound (name : String)
deriving DecidableEq, Repr

/-- The state of a `ContextManager` (lines 99-169) together with the
module-level shared context it mutates through
`setupSharedContext`/`clearSharedContext`: the name-keyed `contexts`
map (association list), the `activeContext` pointer, and the shared
context. -/
structure CMState where
  contexts : List (String × Nat × Nat)
  activeContext : Option String
  shared : SharedContext
deriving DecidableEq, Repr

/-- `this.contexts.get(name)`. -/
def cmGet (s : CMState) (name : String) : Option (Nat × Nat) :=
  (s.contexts.find? (fun p => p.1 = name)).map (fun p => p.2)

/-- `switchTo(name)` (lines 120-128): throws a not-found error if the
name is absent (first component `Except.error`, state returned
unchanged), otherwise runs `setupSharedContext` and marks the entry
active. -/
def ContextManager.switchTo (s : CMState) (name : String) :
    Except CMError Unit × CMState :=
  match cmGet s name with
  | none => (Except.error (CMError.contextNotFound name), s)
  | some c =>
      (Except.ok (),
       { s with shared := setupSharedContext c.1 c.2, activeContext := some name })

/-- A fresh `ContextManager` with no registrations, no active entry
and a cleared shared context. -/
def emptyContextManager : CMState :=
  { contexts := [], activeContext := none, shared := clearSharedContext }

/-- The registration state of the Babylon engine driving the
orchestrator: the `onEndFrameObservable` observer list and the
`_activeRenderLoops` list fed by `runRenderLoop` (each engine frame
executes every registered render-loop callback once, and the end of
each engine frame notifies every end-frame observer once). -/
structure EngineLoopState where
  endFrameObservers : Nat
  activeRenderLoops : Nat
deriving DecidableEq, Repr

/-- `engine.onEndFrameObservable.add(cb)`. -/
def engineOnEndFrameAdd (s : EngineLoopState) : EngineLoopState :=
  { s with endFrameObservers := s.endFrameObservers + 1 }

/-- `engine.runRenderLoop(cb)`: appends `cb` to the engine's active
render loops. -/
def engineRunRenderLoop (s : EngineLoopState) : EngineLoopState :=
  { s with activeRenderLoops := s.activeRenderLoops + 1 }

/-- `PixiBabylonApplication.start()` (`src/src/core/PixiBabylonApp.ts`
lines 80-105), translated statement by statement: it registers an
end-frame observer (lines 81-84), registers the per-frame sequence
with `runRenderLoop` (lines 85-98), then registers the same end-frame
observer a second time (lines 101-104).  There is no running-state
guard and the class has no `stop()`. -/
def pixiBabylonApplicationStart (s : EngineLoopState) : EngineLoopState :=
  engineOnEndFrameAdd (engineRunRenderLoop (engineOnEndFrameAdd s))

/-- An engine with nothing registered, the state before the first
`start()`. -/
def initEngineLoop : EngineLoopState :=
  { endFrameObservers := 0, activeRenderLoops := 0 }

/-- The probing loop reads exactly the first `n` per-unit 2D bindings,
in unit order, and only moves the active-texture slot while doing so. -/
theorem captureBoundTextures_spec (c : GLCtx) :
    ∀ n, (captureBoundTextures c n).1 = (List.range n).map c.boundTexture2D ∧
      ∃ t, (captureBoundTextures c n).2 = { c with activeTexture := t } := by
  intro n
  induction n with
  | zero => exact ⟨rfl, c.activeTexture, rfl⟩
  | succ n ih =>
      obtain ⟨h1, t, h2⟩ := ih
      constructor
      · show (captureBoundTextures c n).1 ++ _ = _
        rw [List.range_succ, List.map_append, h1, h2]
        simp [glActiveTexture, glGetTextureBinding2D]
      · exact ⟨TEXTURE0 + n, by
          show glActiveTexture (captureBoundTextures c n).2 (TEXTURE0 + n) = _
          rw [h2]; rfl⟩

/-- `captureWebGLState` leaves the context exactly as it found it:
the active-unit switching during probing is not observable afterward. -/
theorem captureWebGLState_snd (c : GLCtx) : (captureWebGLState c).2 = c := by
  obtain ⟨-, t, h2⟩ := captureBoundTextures_spec c (min c.maxCombinedTextureImageUnits 8)
  show glActiveTexture (captureBoundTextures c (min c.maxCombinedTextureImageUnits 8)).2
      c.activeTexture = c
  rw [h2]
  rfl

/-- The snapshot produced by `captureWebGLState` records each tracked
slot's current value. -/
theorem captureWebGLState_fst (c : GLCtx) :
    (captureWebGLState c).1 =
      { viewport := c.viewport
        scissorBox := c.scissorBox
        clearColor := c.clearColor
        blendSrc := c.blendSrcRGB
        blendDst := c.blendDstRGB
        blendSrcAlpha := c.blendSrcAlpha
        blendDstAlpha := c.blendDstAlpha
        depthFunc := c.depthFunc
        stencilFuncFn := c.stencilFunc
        stencilRef := c.stencilRef
        stencilValueMask := c.stencilValueMask
        activeTexture := c.activeTexture
        boundTextures :=
          (List.range (min c.maxCombinedTextureImageUnits 8)).map c.boundTexture2D
        boundArrayBuffer := c.boundArrayBuffer
        boundElementArrayBuffer := c.boundElementArrayBuffer
        boundFramebuffer := c.boundFramebuffer
        boundRenderbuffer := c.boundRenderbuffer } := by
  obtain ⟨h1, t, h2⟩ := captureBoundTextures_spec c (min c.maxCombinedTextureImageUnits 8)
  show ({ viewport := _, scissorBox := _, clearColor := _, blendSrc := _, blendDst := _,
          blendSrcAlpha := _, blendDstAlpha := _, depthFunc := _, stencilFuncFn := _,
          stencilRef := _, stencilValueMask := _, activeTexture := _,
          boundTextures := (captureBoundTextures c (min c.maxCombinedTextureImageUnits 8)).1,
          boundArrayBuffer := _, boundElementArrayBuffer := _, boundFramebuffer := _,
          boundRenderbuffer := _ } : WebGLState) = _
  rw [h1, h2]
  rfl

/-- The rebinding loop writes `ts` into the per-unit binding slots
starting at unit `i`, touching nothing else except the active unit. -/
theorem restoreBoundTextures_spec :
    ∀ (ts : List (Option Nat)) (i : Nat) (c : GLCtx),
      ∃ t, restoreBoundTextures c ts i =
        { c with
          activeTexture := t
          boundTexture2D := fun u =>
            if i ≤ u ∧ u - i < ts.length then ts.getD (u - i) none
            else c.boundTexture2D u } := by
  intro ts
  induction ts with
  | nil =>
      intro i c
      refine ⟨c.activeTexture, ?_⟩
      have hbt : (fun u =>
          if i ≤ u ∧ u - i < ([] : List (Option Nat)).length
          then ([] : List (Option Nat)).getD (u - i) none
          else c.boundTexture2D u) = c.boundTexture2D := by
        funext u
        simp
      rw [restoreBoundTextures, hbt]
  | cons hd tl ih =>
      intro i c
      obtain ⟨t, h⟩ := ih (i + 1) (glBindTexture2D (glActiveTexture c (TEXTURE0 + i)) hd)
      refine ⟨t, ?_⟩
      rw [restoreBoundTextures, h]
      apply GLCtx.ext <;> try rfl
      funext u
      simp only [glBindTexture2D, glActiveTexture, Nat.add_sub_cancel_left,
        List.length_cons]
      rcases Nat.lt_trichotomy u i with hu | hu | hu
      · rw [if_neg (by omega : ¬(i + 1 ≤ u ∧ u - (i + 1) < tl.length)),
          if_neg (by omega : ¬u = i),
          if_neg (by omega : ¬(i ≤ u ∧ u - i < tl.length + 1))]
      · subst hu
        rw [if_neg (by omega : ¬(u + 1 ≤ u ∧ u - (u + 1) < tl.length)),
          if_pos (rfl : u = u),
          if_pos (by omega : u ≤ u ∧ u - u < tl.length + 1)]
        simp
      · by_cases hrange : u - (i + 1) < tl.length
        · rw [if_pos (⟨by omega, hrange⟩ : i + 1 ≤ u ∧ u - (i + 1) < tl.length),
            if_pos (⟨by omega, by omega⟩ : i ≤ u ∧ u - i < tl.length + 1)]
          have hui : u - i = (u - (i + 1)) + 1 := by omega
          rw [hui, List.getD_cons_succ]
        · rw [if_neg (by omega : ¬(i + 1 ≤ u ∧ u - (i + 1) < tl.length)),
            if_neg (by omega : ¬u = i),
            if_neg (by omega : ¬(i ≤ u ∧ u - i < tl.length + 1))]

/-- Full characterization of `restoreWebGLState`: every tracked slot is
written from the snapshot (per-unit bindings for the units the snapshot
recorded), the untracked `boundVertexArray` and the context constant are
untouched, and the active unit finishes at the snapshot's value. -/
theorem restoreWebGLState_spec (c : GLCtx) (s : WebGLState) :
    restoreWebGLState c s =
      { c with
        viewport := s.viewport
        scissorBox := s.scissorBox
        clearColor := s.clearColor
        blendSrcRGB := s.blendSrc
        blendDstRGB := s.blendDst
        blendSrcAlpha := s.blendSrcAlpha
        blendDstAlpha := s.blendDstAlpha
        depthFunc := s.depthFunc
        stencilFunc := s.stencilFuncFn
        stencilRef := s.stencilRef
        stencilValueMask := s.stencilValueMask
        boundArrayBuffer := s.boundArrayBuffer
        boundElementArrayBuffer := s.boundElementArrayBuffer
        boundFramebuffer := s.boundFramebuffer
        boundRenderbuffer := s.boundRenderbuffer
        activeTexture := s.activeTexture
        boundTexture2D := fun u =>
          if u < s.boundTextures.length then s.boundTextures.getD u none
          else c.boundTexture2D u } := by
  obtain ⟨t, h⟩ := restoreBoundTextures_spec s.boundTextures 0
    (glBindRenderbuffer (glBindFramebuffer (glBindElementArrayBuffer (glBindArrayBuffer
      (glStencilFunc (glDepthFunc (glBlendFuncSeparate (glClearColor (glScissor
        (glViewport c s.viewport) s.scissorBox) s.clearColor)
        s.blendSrc s.blendDst s.blendSrcAlpha s.blendDstAlpha) s.depthFunc)
        s.stencilFuncFn s.stencilRef s.stencilValueMask) s.boundArrayBuffer)
      s.boundElementArrayBuffer) s.boundFramebuffer) s.boundRenderbuffer)
  show glActiveTexture (restoreBoundTextures _ s.boundTextures 0) s.activeTexture = _
  rw [h]
  apply GLCtx.ext <;> try rfl
  funext u
  show (if 0 ≤ u ∧ u - 0 < s.boundTextures.length then s.boundTextures.getD (u - 0) none
      else c.boundTexture2D u) = _
  simp only [Nat.zero_le, true_and, Nat.sub_zero]

/-- C1: for every GPU context state, `restore(ctx, capture(ctx))` with
no intervening writes leaves every tracked state slot — viewport,
scissor, clear color, RGB/alpha blend functions, depth function,
stencil function/ref/mask, active texture unit, per-unit bound 2D
textures, bound array/element buffers, bound framebuffer, bound
renderbuffer — equal to its value immediately before the capture (the
whole context is restored exactly). -/
theorem claim_C1_capture_restore_roundtrip (c : GLCtx) :
    restoreWebGLState (captureWebGLState c).2 (captureWebGLState c).1 = c := by
  rw [captureWebGLState_snd, captureWebGLState_fst, restoreWebGLState_spec]
  apply GLCtx.ext <;> try rfl
  funext u
  dsimp only
  by_cases hu : u < min c.maxCombinedTextureImageUnits 8
  · rw [if_pos (by simpa using hu)]
    simp [List.getD_eq_getElem?_getD, List.getElem?_map, List.getElem?_range hu]
  · rw [if_neg (by simpa using hu)]

/-- C2: `withPixiState` captures the GPU state on entry and restores it
on every exit path: when the wrapped operation `fn` throws, every
tracked GPU state slot after the call equals its value before the call,
and the failure is re-raised to the caller rather than swallowed. -/
theorem claim_C2_withPixiState_restores_and_rethrows {ε : Type}
    (reset : GLCtx → GLCtx) (fn : GLCtx → Option ε × GLCtx) (ctx : GLCtx)
    (e : ε) (cf : GLCtx)
    (hfail : fn (reset (captureWebGLState ctx).2) = (some e, cf)) :
    (withPixiState reset fn ctx).1 = some e ∧
      trackedEq (withPixiState reset fn ctx).2 ctx := by
  have hw : withPixiState reset fn ctx =
      (some e, restoreWebGLState cf (captureWebGLState ctx).1) := by
    simp only [withPixiState]
    rw [hfail]
  rw [hw]
  refine ⟨rfl, ?_⟩
  rw [captureWebGLState_fst, restoreWebGLState_spec]
  refine ⟨rfl, rfl, rfl, rfl, rfl, rfl, rfl, rfl, rfl, rfl, rfl, rfl, ?_, rfl, rfl, rfl, rfl⟩
  intro i hi
  dsimp only
  rw [if_pos (by simpa using hi)]
  simp [List.getD_eq_getElem?_getD, List.getElem?_map, List.getElem?_range hi]

/-- C2 witness: a concrete failing wrapped operation (throwing `7` on
the initial GL context) exits with the failure re-raised and the
tracked state equal to the state before entry. -/
theorem claim_C2_witness :
    (withPixiState id (fun c => (some 7, c)) initGLCtx).1 = some 7 ∧
      trackedEq (withPixiState id (fun c => (some 7, c)) initGLCtx).2 initGLCtx :=
  claim_C2_withPixiState_restores_and_rethrows id (fun c => (some 7, c)) initGLCtx 7
    (id (captureWebGLState initGLCtx).2) rfl

/-- C3: for every input pixel, the Correction Filter's fragment stage
outputs `(r/a, g/a, b/a, a)` when `a` is nonzero — in particular it is
the identity for `a = 1` — and outputs exactly `(0,0,0,0)` when `a` is
exactly zero, regardless of the input RGB values. -/
theorem claim_C3_fragment_unpremultiply (c : Color4) :
    (c.a ≠ 0 → fragmentShaderMain c = ⟨c.r / c.a, c.g / c.a, c.b / c.a, c.a⟩) ∧
      (c.a = 1 → fragmentShaderMain c = c) ∧
      fragmentShaderMain ⟨c.r, c.g, c.b, 0⟩ = ⟨0, 0, 0, 0⟩ := by
  refine ⟨fun h => by rw [fragmentShaderMain, if_neg h], fun h => ?_, by
    rw [fragmentShaderMain, if_pos rfl]⟩
  obtain ⟨r, g, b, a⟩ := c
  simp only at h
  subst h
  simp [fragmentShaderMain]

/-- C3 witness: concrete pixels — un-premultiplication at `a = 1/2`,
identity at `a = 1`, and transparent black at `a = 0` with nonzero
input RGB. -/
theorem claim_C3_witness :
    fragmentShaderMain ⟨1, 0, 0, 1/2⟩ = ⟨2, 0, 0, 1/2⟩ ∧
      fragmentShaderMain ⟨3/4, 1/2, 1/4, 1⟩ = ⟨3/4, 1/2, 1/4, 1⟩ ∧
      fragmentShaderMain ⟨9/10, 2/5, 1/5, 0⟩ = ⟨0, 0, 0, 0⟩ := by
  refine ⟨?_, ?_, ?_⟩
  · rw [(claim_C3_fragment_unpremultiply ⟨1, 0, 0, 1/2⟩).1 (by norm_num)]
    norm_num [Color4.mk.injEq]
  · exact (claim_C3_fragment_unpremultiply ⟨3/4, 1/2, 1/4, 1⟩).2.1 rfl
  · exact (claim_C3_fragment_unpremultiply ⟨9/10, 2/5, 1/5, 0⟩).2.2

/-- The size the constructor computes for the spec's scenario input:
requested `{width: 100.4, height: 50.1}` at resolution `2` gives render
pixel dimensions `{width: 202, height: 102}` (each dimension is ceiled
before the scaling, then the scaled value is ceiled again). -/
theorem renderSizeOf_scenario :
    renderSizeOf ⟨(100.4 : ℚ), (50.1 : ℚ)⟩ 2 = ⟨202, 102⟩ := by
  have h1 : mathCeil (100.4 : ℚ) = 101 := by
    rw [mathCeil]
    norm_num
    rw [show ⌈(502 / 5 : ℚ)⌉ = (101 : ℤ) by rw [Int.ceil_eq_iff]; constructor <;> norm_num]
    norm_num
  have h2 : mathCeil (50.1 : ℚ) = 51 := by
    rw [mathCeil]
    norm_num
    rw [show ⌈(501 / 10 : ℚ)⌉ = (51 : ℤ) by rw [Int.ceil_eq_iff]; constructor <;> norm_num]
    norm_num
  rw [renderSizeOf, normalizedSize]
  dsimp only
  rw [h1, h2, QSize.mk.injEq]
  constructor
  · rw [mathCeil]
    norm_num
  · rw [mathCeil]
    norm_num

/-- C4 counterexample: at requested size `{width: 100.4, height: 50.1}`
and resolution `2`, the constructor's render pixel size is not the
claimed `{width: 202, height: 101}` (the height comes out as 102). -/
theorem claim_C4_counterexample :
    renderSizeOf ⟨(100.4 : ℚ), (50.1 : ℚ)⟩ 2 ≠ ⟨202, 101⟩ := by
  rw [renderSizeOf_scenario]
  norm_num [QSize.mk.injEq]

/-- C4 as amended: the constructor rounds each requested dimension up
to an integer BEFORE multiplying by the resolution (and rounds up again
after), so `{width: 100.4, height: 50.1}` at resolution `2` yields
pixel dimensions `{width: 202, height: 102}`. -/
theorem claim_C4_ceil_before_scaling :
    renderSizeOf ⟨(100.4 : ℚ), (50.1 : ℚ)⟩ 2 = ⟨202, 102⟩ :=
  renderSizeOf_scenario

/-- C5 counterexample: constructing with the zero-area size
`{width: 0, height: 50}` does not fail — the constructor returns
normally, with a zero-width Render Target allocation. -/
theorem claim_C5_counterexample :
    pixiDynamicTextureCtorSize ⟨0, 50⟩ 1 =
      Except.ok
        { renderSize := ⟨0, 50⟩
          textureDataLength := 0
          renderTextureWidth := 0
          renderTextureHeight := 50
          renderTextureResolution := 1 } := by
  have hr : renderSizeOf ⟨0, 50⟩ 1 = ⟨0, 50⟩ := by
    rw [renderSizeOf, normalizedSize]
    dsimp only
    rw [QSize.mk.injEq]
    constructor
    · norm_num [mathCeil]
    · norm_num [mathCeil]
  rw [pixiDynamicTextureCtorSize, Except.ok.injEq, PixiDynamicTextureInit.mk.injEq]
  refine ⟨hr, ?_, ?_, ?_, rfl⟩
  · rw [hr]
    norm_num
  · norm_num [normalizedSize, mathCeil]
  · norm_num [normalizedSize, mathCeil]

/-- C5 as amended: zero-area sizes are NOT rejected — for every
requested size with a zero width or height, the constructor succeeds
(no invalid-configuration error) and the allocated Render Target keeps
a zero pixel dimension. -/
theorem claim_C5_zero_area_accepted (s : QSize) (res : ℚ)
    (h : s.width = 0 ∨ s.height = 0) :
    (∃ r, pixiDynamicTextureCtorSize s res = Except.ok r) ∧
      ((renderSizeOf s res).width = 0 ∨ (renderSizeOf s res).height = 0) := by
  refine ⟨⟨_, rfl⟩, ?_⟩
  cases h with
  | inl h =>
      left
      simp [renderSizeOf, normalizedSize, mathCeil, h]
  | inr h =>
      right
      simp [renderSizeOf, normalizedSize, mathCeil, h]

/-- C5 witness: the amended statement at the concrete zero-area size
`{width: 0, height: 50}` with resolution `1`. -/
theorem claim_C5_witness :
    (∃ r, pixiDynamicTextureCtorSize ⟨0, 50⟩ 1 = Except.ok r) ∧
      ((renderSizeOf ⟨0, 50⟩ 1).width = 0 ∨ (renderSizeOf ⟨0, 50⟩ 1).height = 0) :=
  claim_C5_zero_area_accepted ⟨0, 50⟩ 1 (Or.inl rfl)

/-- C6: for every registry state and every name absent from the
registry, `switchTo(name)` throws a not-found error and leaves the
registry entries, the active entry, and the shared context unchanged. -/
theorem claim_C6_switchTo_missing_not_found (s : CMState) (name : String)
    (h : cmGet s name = none) :
    ContextManager.switchTo s name =
      (Except.error (CMError.contextNotFound name), s) := by
  rw [ContextManager.switchTo, h]

/-- C6 witness: `switchTo("missing")` on the empty registry throws the
not-found error and returns the registry state unchanged. -/
theorem claim_C6_witness :
    ContextManager.switchTo emptyContextManager "missing" =
      (Except.error (CMError.contextNotFound "missing"), emptyContextManager) :=
  claim_C6_switchTo_missing_not_found emptyContextManager "missing" rfl

/-- C7 evaluation at the failing input: the current
`PixiBabylonApplication.start()` has no Stopped/Running guard — a first
`start()` already registers two (duplicate) end-frame observers and one
render-loop callback, and a second `start()` is not a no-op: it doubles
both registrations, so the per-frame sequence then executes twice per
frame (the claim requires exactly once, with no duplicate observer
registrations). -/
theorem claim_C7_start_not_a_noop :
    pixiBabylonApplicationStart initEngineLoop =
        { endFrameObservers := 2, activeRenderLoops := 1 } ∧
      pixiBabylonApplicationStart (pixiBabylonApplicationStart initEngineLoop) =
        { endFrameObservers := 4, activeRenderLoops := 2 } ∧
      pixiBabylonApplicationStart (pixiBabylonApplicationStart initEngineLoop) ≠
        pixiBabylonApplicationStart initEngineLoop := by
  refine ⟨rfl, rfl, ?_⟩
  decide

/-- C8: `dispose()` on a bridge whose before-render subscription is
active removes that subscription (so a subsequent orchestrated frame's
notification cycle never syncs the disposed Render Target), destroys
the Render Target, and detaches — but does not destroy — the
caller-supplied content container. -/
theorem claim_C8_dispose_releases (world : Observable) (b : PDTLifecycle) (id : Nat)
    (hobs : b.observer = some id) (hcd : b.containerDestroyed = false) :
    id ∉ (pixiDynamicTextureDispose world b).1.notifyTargets ∧
      (pixiDynamicTextureDispose world b).2.renderTextureDestroyed = true ∧
      (pixiDynamicTextureDispose world b).2.containerDestroyed = false ∧
      (pixiDynamicTextureDispose world b).2.containerAttached = false := by
  refine ⟨?_, rfl, hcd, rfl⟩
  intro hmem
  simp [pixiDynamicTextureDispose, hobs, Observable.notifyTargets,
    Observable.removeObs] at hmem

/-- C8 witness: disposing a bridge with active observer `3` on an
observable that also carries an unrelated observer `5`. -/
theorem claim_C8_witness :
    3 ∉ (pixiDynamicTextureDispose ⟨[(3, false), (5, false)]⟩
        ⟨some 3, false, false, false, false, true⟩).1.notifyTargets ∧
      (pixiDynamicTextureDispose ⟨[(3, false), (5, false)]⟩
        ⟨some 3, false, false, false, false, true⟩).2.renderTextureDestroyed = true ∧
      (pixiDynamicTextureDispose ⟨[(3, false), (5, false)]⟩
        ⟨some 3, false, false, false, false, true⟩).2.containerDestroyed = false ∧
      (pixiDynamicTextureDispose ⟨[(3, false), (5, false)]⟩
        ⟨some 3, false, false, false, false, true⟩).2.containerAttached = false :=
  claim_C8_dispose_releases ⟨[(3, false), (5, false)]⟩
    ⟨some 3, false, false, false, false, true⟩ 3 rfl rfl

/-- C9 evaluation at the failing input: after
`PixiDynamicTexture.setRenderObservable(obs)` (which assigns only the
static class property), constructing a bridge with `autoUpdate = true`
registers nothing — the instance field `beforeRenderObservable` is
still `undefined` when the constructor runs `setupUpdateBehavior`, so
the orchestrator observable is unchanged, the bridge holds no observer,
and an orchestrated frame syncs the Render Target zero times instead of
exactly once. -/
theorem claim_C9_autoupdate_registers_nothing :
    (pixiDynamicTextureConstruct (pixiDynamicTextureSetRenderObservable none 0) true
        ⟨[(9, false)]⟩ 1).2 = ⟨[(9, false)]⟩ ∧
      (pixiDynamicTextureConstruct (pixiDynamicTextureSetRenderObservable none 0) true
        ⟨[(9, false)]⟩ 1).1.observer = none ∧
      Observable.syncCount
        (pixiDynamicTextureConstruct (pixiDynamicTextureSetRenderObservable none 0) true
          ⟨[(9, false)]⟩ 1).2 1 = 0 :=
  ⟨rfl, rfl, rfl⟩

/-- C10: a state manager's `restoreState()` before any `saveState()`
(the `savedState` closure variable is still `null`, as right after
`createStateManager` or after `reset()`) performs no GL write and
leaves every context slot unchanged. -/
theorem claim_C10_restore_without_save_is_noop (c : GLCtx) :
    stateManagerRestoreState createStateManagerSavedState c = c ∧
      ∀ saved, stateManagerRestoreState (stateManagerReset saved) c = c :=
  ⟨rfl, fun _ => rfl⟩
